import Mathlib

set_option maxHeartbeats 1000000

/-
Shallow embedding of the `activitypub` Go package (files `actor.go` and
`collection.go`): the data model of vocabulary entities, the JSON decode and
encode operations, the recipient deduplication, the collection semantics and
the view-conversion layer.

Conventions of the embedding:
- `ID`, `IRI`, `ActivityVocabularyType`, `MimeType` are Go string types and
  are embedded as `String`.
- `time.Time` and `time.Duration` values only matter to the claims through
  their zero value, so both are embedded as `Int` with `0` as the zero value.
- Go interface values of type `Item` that may be `nil` are embedded as
  `Option Item`; slices are embedded as `List`.
- `Actor`, `Object`, `Collection` contain `Item`-typed fields, so in Lean they
  are structures parameterized by the item type (`ActorG`, `ObjectG`,
  `CollectionG`) tied into the `Item` inductive as nested occurrences.
- fallible Go functions returning `(T, error)` are embedded as
  `Except String T`; byte buffers produced by `MarshalJSON` are embedded as
  lists of key/value entries (the commas and braces of the concrete syntax
  carry no information beyond the entry sequence).
- helper functions of the repository that are not part of the two source files
  (JSON getters, the deduplication routine, the IRI equality, the property
  writers) carry a doc comment starting with `Modelled from the spec:`.
-/

abbrev ID := String

abbrev IRI := String

abbrev ActivityVocabularyType := String

abbrev MimeType := String

abbrev NaturalLanguageValues := List (String × String)

abbrev ActivityVocabularyTypes := List ActivityVocabularyType

/-- Modelled from the spec: construct an empty natural-language container
(`NaturalLanguageValuesNew`, not in the two source files). -/
def NaturalLanguageValuesNew : NaturalLanguageValues := []

/-- Source record (content plus media type), as referenced by the `Source`
fields of `Actor` and `Collection`. -/
structure Source where
  Content : NaturalLanguageValues := []
  MediaType : MimeType := ""
deriving DecidableEq

/-- `PublicKey` of actor.go lines 188-192, with the item type as parameter. -/
structure PublicKeyG (ι : Type) where
  ID : ID := ""
  Owner : Option ι := none
  PublicKeyPem : String := ""

/-- `Endpoints` of actor.go lines 371-392, with the item type as parameter. -/
structure EndpointsG (ι : Type) where
  UploadMedia : Option ι := none
  OauthAuthorizationEndpoint : Option ι := none
  OauthTokenEndpoint : Option ι := none
  ProvideClientKey : Option ι := none
  SignClientKey : Option ι := none
  SharedInbox : Option ι := none

/-- Modelled from the spec: the base `Object` shape (section 3 of the spec;
the `Object` struct itself is not in the two source files, but its field
prefix is the shared prefix of `Actor` and `Collection`, in their declared
field order). -/
structure ObjectG (ι : Type) where
  ID : ID := ""
  «Type» : ActivityVocabularyType := ""
  Name : NaturalLanguageValues := []
  Attachment : Option ι := none
  AttributedTo : Option ι := none
  Audience : List ι := []
  Content : NaturalLanguageValues := []
  Context : Option ι := none
  MediaType : MimeType := ""
  EndTime : Int := 0
  Generator : Option ι := none
  Icon : Option ι := none
  Image : Option ι := none
  InReplyTo : Option ι := none
  Location : Option ι := none
  Preview : Option ι := none
  Published : Int := 0
  Replies : Option ι := none
  StartTime : Int := 0
  Summary : NaturalLanguageValues := []
  Tag : List ι := []
  Updated : Int := 0
  URL : Option ι := none
  To : List ι := []
  Bto : List ι := []
  CC : List ι := []
  BCC : List ι := []
  Duration : Int := 0
  Likes : Option ι := none
  Shares : Option ι := none
  Source : Source := {}

/-- `Actor` of actor.go lines 37-155: the common object fields followed by the
actor-only fields, in declared order. -/
structure ActorG (ι : Type) where
  ID : ID := ""
  «Type» : ActivityVocabularyType := ""
  Name : NaturalLanguageValues := []
  Attachment : Option ι := none
  AttributedTo : Option ι := none
  Audience : List ι := []
  Content : NaturalLanguageValues := []
  Context : Option ι := none
  MediaType : MimeType := ""
  EndTime : Int := 0
  Generator : Option ι := none
  Icon : Option ι := none
  Image : Option ι := none
  InReplyTo : Option ι := none
  Location : Option ι := none
  Preview : Option ι := none
  Published : Int := 0
  Replies : Option ι := none
  StartTime : Int := 0
  Summary : NaturalLanguageValues := []
  Tag : List ι := []
  Updated : Int := 0
  URL : Option ι := none
  To : List ι := []
  Bto : List ι := []
  CC : List ι := []
  BCC : List ι := []
  Duration : Int := 0
  Likes : Option ι := none
  Shares : Option ι := none
  Source : Source := {}
  Inbox : Option ι := none
  Outbox : Option ι := none
  Following : Option ι := none
  Followers : Option ι := none
  Liked : Option ι := none
  PreferredUsername : NaturalLanguageValues := []
  Endpoints : Option (EndpointsG ι) := none
  Streams : List (List ι) := []
  PublicKey : PublicKeyG ι := {}

/-- `Collection` of collection.go lines 29-133: the common object fields
followed by the collection-only fields, in declared order. -/
structure CollectionG (ι : Type) where
  ID : ID := ""
  «Type» : ActivityVocabularyType := ""
  Name : NaturalLanguageValues := []
  Attachment : Option ι := none
  AttributedTo : Option ι := none
  Audience : List ι := []
  Content : NaturalLanguageValues := []
  Context : Option ι := none
  MediaType : MimeType := ""
  EndTime : Int := 0
  Generator : Option ι := none
  Icon : Option ι := none
  Image : Option ι := none
  InReplyTo : Option ι := none
  Location : Option ι := none
  Preview : Option ι := none
  Published : Int := 0
  Replies : Option ι := none
  StartTime : Int := 0
  Summary : NaturalLanguageValues := []
  Tag : List ι := []
  Updated : Int := 0
  URL : Option ι := none
  To : List ι := []
  Bto : List ι := []
  CC : List ι := []
  BCC : List ι := []
  Duration : Int := 0
  Likes : Option ι := none
  Shares : Option ι := none
  Source : Source := {}
  Current : Option ι := none
  First : Option ι := none
  Last : Option ι := none
  TotalItems : Nat := 0
  Items : List ι := []

/-- The polymorphic `Item` sum type: a bare link, a generic object, an actor,
the collection variants, or a sequence of items (`ItemCollection` used as an
`Item`).  `OrderedCollection` and `CollectionPage` are carried with a
`Collection`-shaped payload (in Go they are distinct struct types with the
same layout); the distinct constructors preserve the fact that a Go type
switch on `*Collection`/`Collection` does not match them. -/
inductive Item where
  | link (href : IRI)
  | object (o : ObjectG Item)
  | actor (a : ActorG Item)
  | collection (c : CollectionG Item)
  | orderedCollection (c : CollectionG Item)
  | collectionPage (c : CollectionG Item)
  | itemCollection (its : List Item)

abbrev Actor := ActorG Item

abbrev Object := ObjectG Item

abbrev Collection := CollectionG Item

abbrev OrderedCollection := CollectionG Item

abbrev CollectionPage := CollectionG Item

abbrev Endpoints := EndpointsG Item

abbrev PublicKey := PublicKeyG Item

abbrev ItemCollection := List Item

def ApplicationType : ActivityVocabularyType := "Application"

def GroupType : ActivityVocabularyType := "Group"

def OrganizationType : ActivityVocabularyType := "Organization"

def PersonType : ActivityVocabularyType := "Person"

def ServiceType : ActivityVocabularyType := "Service"

/-- `ActorTypes` of actor.go lines 19-25. -/
def ActorTypes : ActivityVocabularyTypes :=
  [ApplicationType, GroupType, OrganizationType, PersonType, ServiceType]

/-- Modelled from the spec: the default actor discriminator used as fallback
for an unrecognized actor-role string (the `ActorType` constant is not in the
two source files). -/
def ActorType : ActivityVocabularyType := "Actor"

def CollectionType : ActivityVocabularyType := "Collection"

def OrderedCollectionType : ActivityVocabularyType := "OrderedCollection"

def CollectionPageType : ActivityVocabularyType := "CollectionPage"

def OrderedCollectionPageType : ActivityVocabularyType := "OrderedCollectionPage"

/-- `CollectionOfItems` of collection.go line 10. -/
def CollectionOfItems : ActivityVocabularyType := "ItemCollection"

/-- `CollectionTypes` of collection.go lines 12-18. -/
def CollectionTypes : ActivityVocabularyTypes :=
  [CollectionOfItems, CollectionType, OrderedCollectionType, CollectionPageType,
   OrderedCollectionPageType]

/-- Modelled from the spec: discriminator-list membership
(`ActivityVocabularyTypes.Contains`, not in the two source files). -/
def ActivityVocabularyTypes.Contains
    (ts : ActivityVocabularyTypes) (t : ActivityVocabularyType) : Bool :=
  ts.contains t

/-- `GetLink` capability of the item model.  `Actor.GetLink` is actor.go
lines 163-165 and `Collection.GetLink` is collection.go lines 195-197 (both
return `IRI(x.ID)`); the remaining variants are modelled from the spec's
capability set of section 3 (a bare link yields its IRI, an object its ID, an
item sequence the empty IRI). -/
def Item.GetLink : Item → IRI
  | .link i => i
  | .object o => o.ID
  | .actor a => a.ID
  | .collection c => c.ID
  | .orderedCollection c => c.ID
  | .collectionPage c => c.ID
  | .itemCollection _ => ""

/-- `GetID` capability, analogous to `Item.GetLink` (`Actor.GetID` is
actor.go lines 158-160, `Collection.GetID` collection.go lines 170-172). -/
def Item.GetID : Item → ID
  | .link i => i
  | .object o => o.ID
  | .actor a => a.ID
  | .collection c => c.ID
  | .orderedCollection c => c.ID
  | .collectionPage c => c.ID
  | .itemCollection _ => ""

/-- `CollectionNew` of collection.go lines 152-158. -/
def CollectionNew (id : ID) : Collection :=
  { ID := id, «Type» := CollectionType,
    Name := NaturalLanguageValuesNew,
    Content := NaturalLanguageValuesNew,
    Summary := NaturalLanguageValuesNew }

/-- `OrderedCollectionNew` of collection.go lines 161-167 (note: it does not
initialize `Summary`). -/
def OrderedCollectionNew (id : ID) : OrderedCollection :=
  { ID := id, «Type» := OrderedCollectionType,
    Name := NaturalLanguageValuesNew,
    Content := NaturalLanguageValuesNew }

/-- `FollowingNew` of collection.go lines 357-368. -/
def FollowingNew : Collection :=
  { ID := "following", «Type» := CollectionType,
    Name := NaturalLanguageValuesNew,
    Content := NaturalLanguageValuesNew,
    Summary := NaturalLanguageValuesNew,
    TotalItems := 0 }

/-- `ActorNew` of actor.go lines 230-249: substitutes the default actor
discriminator for an unrecognized role, initializes the natural-language
containers and the inbox/outbox/liked ordered collections. -/
def ActorNew (id : ID) (typ : ActivityVocabularyType) : Actor :=
  let typ' := if ActivityVocabularyTypes.Contains ActorTypes typ then typ else ActorType
  { ID := id, «Type» := typ',
    Name := NaturalLanguageValuesNew,
    Content := NaturalLanguageValuesNew,
    Summary := NaturalLanguageValuesNew,
    Inbox := some (.orderedCollection (OrderedCollectionNew "test-inbox")),
    Outbox := some (.orderedCollection (OrderedCollectionNew "test-outbox")),
    Liked := some (.orderedCollection (OrderedCollectionNew "test-liked")),
    PreferredUsername := NaturalLanguageValuesNew }

/-- `Collection.Count` of collection.go lines 211-216: the explicit total when
nonzero, else the length of the materialized items. -/
def CollectionG.Count (c : Collection) : Nat :=
  if 0 < c.TotalItems then c.TotalItems else c.Items.length

/-- Characters after the first `?` or `#` of an IRI string are dropped by the
tolerant comparison. -/
def stripChars : List Char → List Char
  | [] => []
  | ch :: rest => if ch = '?' ∨ ch = '#' then [] else ch :: stripChars rest

/-- The identifier with its trailing query/fragment part removed. -/
def IRIStrip (i : IRI) : IRI := String.mk (stripChars i.toList)

/-- Modelled from the spec: identifier equality of section 4.6
(`IRI.Equals`, not in the two source files).  Strict mode is exact byte
equality; tolerant mode (flag `false`) ignores a trailing query/fragment
part. -/
def IRI.Equals (i w : IRI) (strict : Bool) : Bool :=
  if strict then i == w else IRIStrip i == IRIStrip w

/-- `Collection.Contains` of collection.go lines 219-229: false on an empty
item list, else a scan comparing the received IRI against each stored item's
link in tolerant mode. -/
def CollectionG.Contains (c : Collection) (r : IRI) : Bool :=
  if c.Items.length = 0 then false
  else c.Items.any (fun it => IRI.Equals r it.GetLink false)

/-- `Collection.Append` of collection.go lines 205-208. -/
def CollectionG.Append (c : Collection) (ob : Item) : Collection :=
  { c with Items := c.Items ++ [ob] }

/-- One step of the first-seen deduplication: keep the accumulator if the
item's link is already present, else append the item. -/
def dedupStep (acc : List Item) (it : Item) : List Item :=
  if acc.any (fun x => x.GetLink == it.GetLink) then acc else acc ++ [it]

/-- Modelled from the spec: `ItemCollectionDeduplication` (section 4.5, not in
the two source files) merges the given addressee lists into one ordered
sequence, removing every element whose identifier was already seen
(first-seen-wins). -/
def ItemCollectionDeduplication (cols : List ItemCollection) : ItemCollection :=
  cols.flatten.foldl dedupStep []

/-- `Actor.Recipients` of actor.go lines 286-289: deduplication over the five
lists to, bto, cc, bcc, audience, in that order. -/
def ActorG.Recipients (a : Actor) : ItemCollection :=
  ItemCollectionDeduplication [a.To, a.Bto, a.CC, a.BCC, a.Audience]

/-- `Actor.Clean` of actor.go lines 291-294: empties `BCC` and `Bto`, touches
nothing else. -/
def ActorG.Clean (a : Actor) : Actor :=
  { a with BCC := [], Bto := [] }

/-- Raw JSON values handed to the decode operations (the wire form). -/
inductive Js where
  | null
  | bool (b : Bool)
  | num (n : Int)
  | str (s : String)
  | arr (elems : List Js)
  | obj (fields : List (String × Js))

/-- First value bound to a key in a JSON object's field list. -/
def Js.lookupField : List (String × Js) → String → Option Js
  | [], _ => none
  | (k, v) :: rest, key => if k = key then some v else Js.lookupField rest key

/-- Value of a key of a top-level JSON object; `none` for a missing key or a
non-object document. -/
def Js.get : Js → String → Option Js
  | .obj fields, key => Js.lookupField fields key
  | _, _ => none

/-- The string payload of a JSON string value. -/
def Js.asString : Js → Option String
  | .str s => some s
  | _ => none

/-- The scanner collaborator's `GetString(buf, key)` of spec section 6
(`jsonparser.GetString`): the value of `key` when present with a string
value, a distinguishable miss otherwise. -/
def jsonparserGetString (data : Js) (key : String) : Option String :=
  (data.get key).bind Js.asString

/-- `PublicKey.UnmarshalJSON` of actor.go lines 194-211: the three string
sub-fields id, owner, publicKeyPem are each required; the first miss aborts
the sub-decode with the scanner's error. -/
def PublicKeyG.UnmarshalJSON (p : PublicKey) (data : Js) : Except String PublicKey :=
  match jsonparserGetString data "id" with
  | none => .error "Key path not found"
  | some id =>
    match jsonparserGetString data "owner" with
    | none => .error "Key path not found"
    | some o =>
      match jsonparserGetString data "publicKeyPem" with
      | none => .error "Key path not found"
      | some pub => .ok { p with ID := id, Owner := some (.link o), PublicKeyPem := pub }

/-- The field-extraction helpers called by `Actor.UnmarshalJSON` and
`Collection.UnmarshalJSON`.  None of them is in the two source files; per
their Go signatures each returns a bare value (no error channel): a missing
or malformed field yields the zero value (the spec's soft-miss policy).  The
decode theorems quantify over every such helper family; `defaultGetters`
below is one concrete family modelled from the spec. -/
structure Getters where
  JSONGetID : Js → ID
  JSONGetType : Js → ActivityVocabularyType
  JSONGetNaturalLanguageField : Js → String → NaturalLanguageValues
  JSONGetItem : Js → String → Option Item
  JSONGetURIItem : Js → String → Option Item
  JSONGetString : Js → String → String
  JSONGetTime : Js → String → Int
  JSONGetDuration : Js → String → Int
  JSONGetInt : Js → String → Int
  JSONGetItems : Js → String → List Item
  GetAPSource : Js → Source
  JSONGetActorEndpoints : Js → String → Option Endpoints
  JSONGetStreams : Js → String → List (List Item)
  JSONGetPublicKey : Js → String → PublicKey

/-- `Actor.UnmarshalJSON` of actor.go lines 296-365, one assignment per source
line, in source order.  The Go method mutates its receiver, so the receiver
`a` is threaded explicitly; fields guarded by `if len(x) > 0` or `!= nil`
keep the receiver's previous value when the guard fails.  (The
`ItemTyperFunc` registry initialization of lines 297-299 configures the
helpers and is absorbed into the `Getters` family.)  The method body has no
error return other than the final `return nil`. -/
def ActorG.UnmarshalJSON (G : Getters) (a : Actor) (data : Js) : Except String Actor :=
  let inReplyTo := G.JSONGetItems data "inReplyTo"
  let toR := G.JSONGetItems data "to"
  let audience := G.JSONGetItems data "audience"
  let bto := G.JSONGetItems data "bto"
  let cc := G.JSONGetItems data "cc"
  let bcc := G.JSONGetItems data "bcc"
  let replies := G.JSONGetItem data "replies"
  let tag := G.JSONGetItems data "tag"
  .ok { a with
    ID := G.JSONGetID data
    «Type» := G.JSONGetType data
    Name := G.JSONGetNaturalLanguageField data "name"
    Content := G.JSONGetNaturalLanguageField data "content"
    Summary := G.JSONGetNaturalLanguageField data "summary"
    Context := G.JSONGetItem data "context"
    URL := G.JSONGetURIItem data "url"
    MediaType := G.JSONGetString data "mediaType"
    Generator := G.JSONGetItem data "generator"
    AttributedTo := G.JSONGetItem data "attributedTo"
    Attachment := G.JSONGetItem data "attachment"
    Location := G.JSONGetItem data "location"
    Published := G.JSONGetTime data "published"
    StartTime := G.JSONGetTime data "startTime"
    EndTime := G.JSONGetTime data "endTime"
    Duration := G.JSONGetDuration data "duration"
    Icon := G.JSONGetItem data "icon"
    Preview := G.JSONGetItem data "preview"
    Image := G.JSONGetItem data "image"
    Updated := G.JSONGetTime data "updated"
    InReplyTo := if 0 < inReplyTo.length then some (.itemCollection inReplyTo) else a.InReplyTo
    To := if 0 < toR.length then toR else a.To
    Audience := if 0 < audience.length then audience else a.Audience
    Bto := if 0 < bto.length then bto else a.Bto
    CC := if 0 < cc.length then cc else a.CC
    BCC := if 0 < bcc.length then bcc else a.BCC
    Replies := if replies.isSome then replies else a.Replies
    Tag := if 0 < tag.length then tag else a.Tag
    Likes := G.JSONGetItem data "likes"
    Shares := G.JSONGetItem data "shares"
    Source := G.GetAPSource data
    PreferredUsername := G.JSONGetNaturalLanguageField data "preferredUsername"
    Followers := G.JSONGetItem data "followers"
    Following := G.JSONGetItem data "following"
    Inbox := G.JSONGetItem data "inbox"
    Outbox := G.JSONGetItem data "outbox"
    Liked := G.JSONGetItem data "liked"
    Endpoints := G.JSONGetActorEndpoints data "endpoints"
    Streams := G.JSONGetStreams data "streams"
    PublicKey := G.JSONGetPublicKey data "publicKey" }

/-- `Collection.UnmarshalJSON` of collection.go lines 232-297, one assignment
per source line, in source order; `uint(JSONGetInt(...))` is embedded as
`Int.toNat` (a negative count clamps to zero; the claims do not depend on the
Go wrap-around of that conversion).  The method body has no error return
other than the final `return nil`. -/
def CollectionG.UnmarshalJSON (G : Getters) (c : Collection) (data : Js) :
    Except String Collection :=
  let inReplyTo := G.JSONGetItems data "inReplyTo"
  let toR := G.JSONGetItems data "to"
  let audience := G.JSONGetItems data "audience"
  let bto := G.JSONGetItems data "bto"
  let cc := G.JSONGetItems data "cc"
  let bcc := G.JSONGetItems data "bcc"
  let replies := G.JSONGetItem data "replies"
  let tag := G.JSONGetItems data "tag"
  .ok { c with
    ID := G.JSONGetID data
    «Type» := G.JSONGetType data
    Name := G.JSONGetNaturalLanguageField data "name"
    Content := G.JSONGetNaturalLanguageField data "content"
    Summary := G.JSONGetNaturalLanguageField data "summary"
    Context := G.JSONGetItem data "context"
    URL := G.JSONGetURIItem data "url"
    MediaType := G.JSONGetString data "mediaType"
    Generator := G.JSONGetItem data "generator"
    AttributedTo := G.JSONGetItem data "attributedTo"
    Attachment := G.JSONGetItem data "attachment"
    Location := G.JSONGetItem data "location"
    Published := G.JSONGetTime data "published"
    StartTime := G.JSONGetTime data "startTime"
    EndTime := G.JSONGetTime data "endTime"
    Duration := G.JSONGetDuration data "duration"
    Icon := G.JSONGetItem data "icon"
    Preview := G.JSONGetItem data "preview"
    Image := G.JSONGetItem data "image"
    Updated := G.JSONGetTime data "updated"
    InReplyTo := if 0 < inReplyTo.length then some (.itemCollection inReplyTo) else c.InReplyTo
    To := if 0 < toR.length then toR else c.To
    Audience := if 0 < audience.length then audience else c.Audience
    Bto := if 0 < bto.length then bto else c.Bto
    CC := if 0 < cc.length then cc else c.CC
    BCC := if 0 < bcc.length then bcc else c.BCC
    Replies := if replies.isSome then replies else c.Replies
    Tag := if 0 < tag.length then tag else c.Tag
    TotalItems := (G.JSONGetInt data "totalItems").toNat
    Items := G.JSONGetItems data "items"
    Current := G.JSONGetItem data "current"
    First := G.JSONGetItem data "first"
    Last := G.JSONGetItem data "last" }

/-- Modelled from the spec: one level of the type-dispatch decode of a
polymorphic reference (sections 4.2 and 8 of the spec; the recursive decode
engine is not in the two source files).  A raw string becomes a bare link, a
raw object an embedded object carrying its id and type; the claims settled
here do not depend on deeper nesting. -/
def jsShallowItem : Js → Option Item
  | .str s => some (.link s)
  | .obj fields =>
      some (.object
        { ID := ((Js.lookupField fields "id").bind Js.asString).getD "",
          «Type» := ((Js.lookupField fields "type").bind Js.asString).getD "" })
  | _ => none

/-- Modelled from the spec: soft string extraction, empty string on miss. -/
def jsGetString (data : Js) (key : String) : String :=
  ((data.get key).bind Js.asString).getD ""

/-- Modelled from the spec: soft integer extraction, zero on miss. -/
def jsGetInt (data : Js) (key : String) : Int :=
  match data.get key with
  | some (.num n) => n
  | _ => 0

/-- Modelled from the spec: natural-language field decode with the expand
rule — a bare string becomes a single entry under the empty language tag, an
object becomes one entry per string-valued member, anything else is empty. -/
def jsGetNL (data : Js) (key : String) : NaturalLanguageValues :=
  match data.get key with
  | some (.str s) => [("", s)]
  | some (.obj fields) =>
      fields.filterMap (fun kv => (Js.asString kv.2).map (fun s => (kv.1, s)))
  | _ => []

/-- Modelled from the spec: a Link-or-Item field decode — an array becomes an
item collection, otherwise the single-value shallow decode applies. -/
def jsGetItem (data : Js) (key : String) : Option Item :=
  match data.get key with
  | some (.arr elems) => some (.itemCollection (elems.filterMap jsShallowItem))
  | some v => jsShallowItem v
  | none => none

/-- Modelled from the spec: a many-valued Link-or-Item field decode producing
an item collection. -/
def jsGetItems (data : Js) (key : String) : List Item :=
  match data.get key with
  | some (.arr elems) => elems.filterMap jsShallowItem
  | some v => (jsShallowItem v).toList
  | none => []

/-- Modelled from the spec: decode of the source record. -/
def jsGetSource (data : Js) : Source :=
  match data.get "source" with
  | some d => { Content := jsGetNL d "content", MediaType := jsGetString d "mediaType" }
  | none => {}

/-- Modelled from the spec: decode of the endpoints record. -/
def jsGetEndpoints (data : Js) (key : String) : Option Endpoints :=
  match data.get key with
  | some d =>
      some { UploadMedia := jsGetItem d "uploadMedia",
             OauthAuthorizationEndpoint := jsGetItem d "oauthAuthorizationEndpoint",
             OauthTokenEndpoint := jsGetItem d "oauthTokenEndpoint",
             ProvideClientKey := jsGetItem d "provideClientKey",
             SignClientKey := jsGetItem d "signClientKey",
             SharedInbox := jsGetItem d "sharedInbox" }
  | none => none

/-- Modelled from the spec: soft decode of the public-key record (the generic
field getter `JSONGetPublicKey`, distinct from the strict
`PublicKey.UnmarshalJSON`). -/
def jsGetPublicKey (data : Js) (key : String) : PublicKey :=
  match data.get key with
  | some d =>
      { ID := jsGetString d "id",
        Owner := (jsonparserGetString d "owner").map .link,
        PublicKeyPem := jsGetString d "publicKeyPem" }
  | none => {}

/-- Modelled from the spec: decode of the supplementary stream collections. -/
def jsGetStreams (data : Js) (key : String) : List (List Item) :=
  match data.get key with
  | some (.arr elems) =>
      elems.filterMap (fun e =>
        match e with
        | .arr xs => some (xs.filterMap jsShallowItem)
        | _ => none)
  | _ => []

/-- Modelled from the spec: one concrete helper family (the default built-in
registration of section 4.2). -/
def defaultGetters : Getters :=
  { JSONGetID := fun d => jsGetString d "id",
    JSONGetType := fun d => jsGetString d "type",
    JSONGetNaturalLanguageField := jsGetNL,
    JSONGetItem := jsGetItem,
    JSONGetURIItem := jsGetItem,
    JSONGetString := jsGetString,
    JSONGetTime := jsGetInt,
    JSONGetDuration := jsGetInt,
    JSONGetInt := jsGetInt,
    JSONGetItems := jsGetItems,
    GetAPSource := jsGetSource,
    JSONGetActorEndpoints := jsGetEndpoints,
    JSONGetStreams := jsGetStreams,
    JSONGetPublicKey := jsGetPublicKey }

/-- Modelled from the spec: the view-conversion relocation of section 4.7 —
an `Object` reinterpreted as an `Actor` keeps the shared field prefix and
defaults the actor-only fields (the Go source performs this with an
`unsafe.Pointer` cast over the byte-identical prefix; the spec mandates the
copying relocation embedded here). -/
def ActorOfObject (o : Object) : Actor :=
  { ID := o.ID, «Type» := o.«Type», Name := o.Name, Attachment := o.Attachment,
    AttributedTo := o.AttributedTo, Audience := o.Audience, Content := o.Content,
    Context := o.Context, MediaType := o.MediaType, EndTime := o.EndTime,
    Generator := o.Generator, Icon := o.Icon, Image := o.Image,
    InReplyTo := o.InReplyTo, Location := o.Location, Preview := o.Preview,
    Published := o.Published, Replies := o.Replies, StartTime := o.StartTime,
    Summary := o.Summary, Tag := o.Tag, Updated := o.Updated, URL := o.URL,
    To := o.To, Bto := o.Bto, CC := o.CC, BCC := o.BCC, Duration := o.Duration,
    Likes := o.Likes, Shares := o.Shares, Source := o.Source }

/-- `ToActor` of actor.go lines 406-418: the narrowing view conversion to
`Actor`.  The Go type switch has four arms (`*Actor`, `Actor`, `*Object`,
`Object`); pointer and value arms coincide under the value semantics of the
embedding.  Every other variant falls through to the conversion error. -/
def ToActor : Item → Except String Actor
  | .actor a => .ok a
  | .object o => .ok (ActorOfObject o)
  | _ => .error "unable to convert object"

/-- `ToCollection` of collection.go lines 342-354: the narrowing view
conversion to `Collection`.  The Go type switch has four arms
(`*Collection`, `Collection`, `*CollectionPage`, `CollectionPage`); every
other variant — an actor in particular — falls through to the conversion
error. -/
def ToCollection : Item → Except String Collection
  | .collection c => .ok c
  | .collectionPage c => .ok c
  | _ => .error "unable to convert to collection"

/-- A value as written into the output buffer by one property write. -/
inductive EVal where
  | str (s : String)
  | int (n : Int)
  | nl (m : NaturalLanguageValues)
  | time (t : Int)
  | item (it : Item)
  | items (its : List Item)
  | source (s : Source)

/-- One output entry: a JSON key with its written value.  The byte buffer of
the Go encoder is embedded as the list of such entries, in write order. -/
abbrev Entry := String × EVal

/-- A conditional property write: the entry is emitted when the presence
condition holds, else nothing is written. -/
def condEntry (c : Prop) [Decidable c] (k : String) (v : EVal) : List Entry :=
  if c then [(k, v)] else []

/-- A property write of an optional value: an entry when present, nothing
otherwise. -/
def optEntry (k : String) (v : Option EVal) : List Entry :=
  match v with
  | some x => [(k, x)]
  | none => []

/-- Modelled from the spec: `writeItemProp` (not in the two source files)
writes one polymorphic reference under its key. -/
def writeItemProp (k : String) (it : Item) : List Entry := [(k, .item it)]

/-- Modelled from the spec: `writeItemCollectionProp` (not in the two source
files) writes an item sequence; an empty container is omitted entirely. -/
def writeItemCollectionProp (k : String) (its : List Item) : List Entry :=
  if its.isEmpty then [] else [(k, .items its)]

/-- Modelled from the spec: `writeIntProp` (not in the two source files)
writes an integer property; a zero (absent) count is omitted entirely. -/
def writeIntProp (k : String) (n : Int) : List Entry :=
  condEntry (n ≠ 0) k (.int n)

/-- Modelled from the spec: `writeObject` (not in the two source files)
writes every present (non-zero, non-empty) common field of an `Object`, in
the declared field order (id, type, then the attributes of section 3);
empty containers, zero timestamps and empty natural-language maps are
omitted. -/
def writeObject (o : Object) : List Entry :=
  condEntry (o.ID ≠ "") "id" (.str o.ID) ++
  condEntry (o.«Type» ≠ "") "type" (.str o.«Type») ++
  condEntry (o.Name ≠ []) "name" (.nl o.Name) ++
  optEntry "attachment" (o.Attachment.map .item) ++
  optEntry "attributedTo" (o.AttributedTo.map .item) ++
  condEntry (0 < o.Audience.length) "audience" (.items o.Audience) ++
  condEntry (o.Content ≠ []) "content" (.nl o.Content) ++
  optEntry "context" (o.Context.map .item) ++
  condEntry (o.MediaType ≠ "") "mediaType" (.str o.MediaType) ++
  condEntry (o.EndTime ≠ 0) "endTime" (.time o.EndTime) ++
  optEntry "generator" (o.Generator.map .item) ++
  optEntry "icon" (o.Icon.map .item) ++
  optEntry "image" (o.Image.map .item) ++
  optEntry "inReplyTo" (o.InReplyTo.map .item) ++
  optEntry "location" (o.Location.map .item) ++
  optEntry "preview" (o.Preview.map .item) ++
  condEntry (o.Published ≠ 0) "published" (.time o.Published) ++
  optEntry "replies" (o.Replies.map .item) ++
  condEntry (o.StartTime ≠ 0) "startTime" (.time o.StartTime) ++
  condEntry (o.Summary ≠ []) "summary" (.nl o.Summary) ++
  condEntry (0 < o.Tag.length) "tag" (.items o.Tag) ++
  condEntry (o.Updated ≠ 0) "updated" (.time o.Updated) ++
  optEntry "url" (o.URL.map .item) ++
  condEntry (0 < o.To.length) "to" (.items o.To) ++
  condEntry (0 < o.Bto.length) "bto" (.items o.Bto) ++
  condEntry (0 < o.CC.length) "cc" (.items o.CC) ++
  condEntry (0 < o.BCC.length) "bcc" (.items o.BCC) ++
  condEntry (o.Duration ≠ 0) "duration" (.time o.Duration) ++
  optEntry "likes" (o.Likes.map .item) ++
  optEntry "shares" (o.Shares.map .item) ++
  condEntry (o.Source ≠ {}) "source" (.source o.Source)

/-- The `Object` view of a `Collection`: the shared field prefix, as used by
`OnObject` in `Collection.MarshalJSON` (the view application itself is not in
the two source files; the spec's section 4.7 relocation is embedded). -/
def CollectionG.toObject (c : Collection) : Object :=
  { ID := c.ID, «Type» := c.«Type», Name := c.Name, Attachment := c.Attachment,
    AttributedTo := c.AttributedTo, Audience := c.Audience, Content := c.Content,
    Context := c.Context, MediaType := c.MediaType, EndTime := c.EndTime,
    Generator := c.Generator, Icon := c.Icon, Image := c.Image,
    InReplyTo := c.InReplyTo, Location := c.Location, Preview := c.Preview,
    Published := c.Published, Replies := c.Replies, StartTime := c.StartTime,
    Summary := c.Summary, Tag := c.Tag, Updated := c.Updated, URL := c.URL,
    To := c.To, Bto := c.Bto, CC := c.CC, BCC := c.BCC, Duration := c.Duration,
    Likes := c.Likes, Shares := c.Shares, Source := c.Source }

/-- `Collection.MarshalJSON` of collection.go lines 300-339: first the common
object fields through the `Object` view, then the collection-specific fields
current, first, last, items, totalItems, in that order; if nothing at all was
written the function returns nil bytes and a nil error (embedded as
`(none, none)`), else the written entries and a nil error.  The comma and
brace bookkeeping of the byte buffer (`writeCommaIfNotEmpty`, the outer
braces) carries no information beyond the entry sequence and is dropped by
the entry-list embedding; the `notEmpty` flag is equivalently the test that
the entry sequence is nonempty. -/
def CollectionG.marshalEntries (c : Collection) : List Entry :=
  writeObject (CollectionG.toObject c) ++
  (match c.Current with
   | some it => writeItemProp "current" it
   | none => []) ++
  (match c.First with
   | some it => writeItemProp "first" it
   | none => []) ++
  (match c.Last with
   | some it => writeItemProp "last" it
   | none => []) ++
  (if c.Items.isEmpty then [] else writeItemCollectionProp "items" c.Items) ++
  writeIntProp "totalItems" (c.TotalItems : Int)

/-- The entry point of collection.go lines 300-339: the entries as above, and
the final `notEmpty` test — nil bytes with nil error when nothing was
written, else the buffer with nil error. -/
def CollectionG.MarshalJSON (c : Collection) : Option (List Entry) × Option String :=
  if (CollectionG.marshalEntries c).isEmpty then (none, none)
  else (some (CollectionG.marshalEntries c), none)

/-- First-seen filtering of an identifier sequence, stated the way the spec
states it: an identifier already seen is dropped, a new one is kept at its
first position and added to the seen set. -/
def keepFirstsAux (seen : List IRI) : List IRI → List IRI
  | [] => []
  | x :: xs => if x ∈ seen then keepFirstsAux seen xs else x :: keepFirstsAux (seen ++ [x]) xs

/-- The subsequence of a list of identifiers that keeps exactly the first
occurrence of each identifier. -/
def keepFirsts (l : List IRI) : List IRI := keepFirstsAux [] l

/-- A conditionally present key: `[k]` when the presence condition holds,
nothing otherwise. -/
def condKey (p : Prop) [Decidable p] (k : String) : List String :=
  if p then [k] else []

/-- The keys the spec's encode rules emit for the common object fields: one
key per present (non-zero, non-empty) field, in the declared order. -/
def objectKeysSpec (o : Object) : List String :=
  condKey (o.ID ≠ "") "id" ++
  condKey (o.«Type» ≠ "") "type" ++
  condKey (o.Name ≠ []) "name" ++
  condKey o.Attachment.isSome "attachment" ++
  condKey o.AttributedTo.isSome "attributedTo" ++
  condKey (0 < o.Audience.length) "audience" ++
  condKey (o.Content ≠ []) "content" ++
  condKey o.Context.isSome "context" ++
  condKey (o.MediaType ≠ "") "mediaType" ++
  condKey (o.EndTime ≠ 0) "endTime" ++
  condKey o.Generator.isSome "generator" ++
  condKey o.Icon.isSome "icon" ++
  condKey o.Image.isSome "image" ++
  condKey o.InReplyTo.isSome "inReplyTo" ++
  condKey o.Location.isSome "location" ++
  condKey o.Preview.isSome "preview" ++
  condKey (o.Published ≠ 0) "published" ++
  condKey o.Replies.isSome "replies" ++
  condKey (o.StartTime ≠ 0) "startTime" ++
  condKey (o.Summary ≠ []) "summary" ++
  condKey (0 < o.Tag.length) "tag" ++
  condKey (o.Updated ≠ 0) "updated" ++
  condKey o.URL.isSome "url" ++
  condKey (0 < o.To.length) "to" ++
  condKey (0 < o.Bto.length) "bto" ++
  condKey (0 < o.CC.length) "cc" ++
  condKey (0 < o.BCC.length) "bcc" ++
  condKey (o.Duration ≠ 0) "duration" ++
  condKey o.Likes.isSome "likes" ++
  condKey o.Shares.isSome "shares" ++
  condKey (o.Source ≠ {}) "source"

/-- The keys the spec's encode rules emit for the collection-specific fields,
in the order current, first, last, items, totalItems, each present only when
the field is set. -/
def collectionKeysSpec (c : Collection) : List String :=
  condKey c.Current.isSome "current" ++
  condKey c.First.isSome "first" ++
  condKey c.Last.isSome "last" ++
  condKey (0 < c.Items.length) "items" ++
  condKey (c.TotalItems ≠ 0) "totalItems"

/- Concrete fixtures used by the closed witness theorems. -/

def recipientsDoc : Actor :=
  { To := [.link "A", .link "B"], CC := [.link "B", .link "C"], BCC := [.link "D"] }

def containsDoc : Collection := { Items := [.link "https://a?page=2"] }

def pkDoc : Js :=
  .obj [("id", .str "https://x/key"), ("owner", .str "https://x/actor"),
        ("publicKeyPem", .str "PEM")]

def pkDocMissingOwner : Js := .obj [("id", .str "https://x/key")]

def countDocFive : Collection := { TotalItems := 5, Items := [.link "i1", .link "i2"] }

def countDocZero : Collection :=
  { TotalItems := 0, Items := [.link "i1", .link "i2", .link "i3"] }

def marshalDoc : Collection := { ID := "https://x" }

lemma map_fst_condEntry (p : Prop) [Decidable p] (k : String) (v : EVal) :
    (condEntry p k v).map Prod.fst = condKey p k := by
  by_cases h : p <;> simp [condEntry, condKey, h]

lemma map_fst_optEntry (k : String) (v : Option EVal) :
    (optEntry k v).map Prod.fst = condKey v.isSome k := by
  cases v <;> simp [optEntry, condKey]

lemma isSome_map_eval (f : Item → EVal) (x : Option Item) :
    (x.map f).isSome = x.isSome := by
  cases x <;> rfl

lemma mem_cond (x k : String) (p : Prop) [Decidable p] :
    (x ∈ condKey p k) ↔ (p ∧ x = k) := by
  by_cases h : p <;> simp [condKey, h]

lemma any_link_iff (acc : List Item) (it : Item) :
    (acc.any fun x => x.GetLink == it.GetLink) = true ↔
      it.GetLink ∈ acc.map Item.GetLink := by
  simp only [List.any_eq_true, List.mem_map, beq_iff_eq]

lemma foldl_dedupStep_map (l : List Item) : ∀ acc : List Item,
    (l.foldl dedupStep acc).map Item.GetLink
      = acc.map Item.GetLink
        ++ keepFirstsAux (acc.map Item.GetLink) (l.map Item.GetLink) := by
  induction l with
  | nil => intro acc; simp [keepFirstsAux]
  | cons x xs ih =>
    intro acc
    rw [List.foldl_cons, List.map_cons]
    by_cases h : x.GetLink ∈ acc.map Item.GetLink
    · have hstep : dedupStep acc x = acc := by
        unfold dedupStep
        rw [if_pos ((any_link_iff acc x).mpr h)]
      rw [hstep, ih acc, keepFirstsAux, if_pos h]
    · have hstep : dedupStep acc x = acc ++ [x] := by
        unfold dedupStep
        rw [if_neg (fun hc => h ((any_link_iff acc x).mp hc))]
      rw [hstep, ih (acc ++ [x]), keepFirstsAux, if_neg h]
      simp [List.map_append]

lemma keepFirstsAux_not_mem_seen (l : List IRI) : ∀ (seen : List IRI) (y : IRI),
    y ∈ keepFirstsAux seen l → y ∉ seen := by
  induction l with
  | nil => intro seen y hy; simp [keepFirstsAux] at hy
  | cons x xs ih =>
    intro seen y hy
    rw [keepFirstsAux] at hy
    by_cases h : x ∈ seen
    · rw [if_pos h] at hy
      exact ih seen y hy
    · rw [if_neg h] at hy
      rcases List.mem_cons.mp hy with rfl | hy'
      · exact h
      · have := ih (seen ++ [x]) y hy'
        exact fun hs => this (List.mem_append_left _ hs)

lemma keepFirstsAux_nodup (l : List IRI) : ∀ seen : List IRI,
    (keepFirstsAux seen l).Nodup := by
  induction l with
  | nil => intro seen; simp [keepFirstsAux]
  | cons x xs ih =>
    intro seen
    rw [keepFirstsAux]
    by_cases h : x ∈ seen
    · rw [if_pos h]; exact ih seen
    · rw [if_neg h]
      refine List.nodup_cons.mpr ⟨fun hx => ?_, ih (seen ++ [x])⟩
      exact keepFirstsAux_not_mem_seen xs (seen ++ [x]) x hx
        (List.mem_append_right _ (List.mem_singleton_self x))

lemma keepFirstsAux_mem (l : List IRI) : ∀ (seen : List IRI) (y : IRI),
    y ∈ keepFirstsAux seen l ↔ (y ∈ l ∧ y ∉ seen) := by
  induction l with
  | nil => intro seen y; simp [keepFirstsAux]
  | cons x xs ih =>
    intro seen y
    rw [keepFirstsAux]
    by_cases h : x ∈ seen
    · rw [if_pos h, ih seen y]
      constructor
      · rintro ⟨hm, hn⟩
        exact ⟨List.mem_cons_of_mem x hm, hn⟩
      · rintro ⟨hm, hn⟩
        rcases List.mem_cons.mp hm with rfl | hm'
        · exact absurd h hn
        · exact ⟨hm', hn⟩
    · rw [if_neg h]
      constructor
      · intro hy
        rcases List.mem_cons.mp hy with rfl | hy'
        · exact ⟨List.mem_cons_self y xs, h⟩
        · rcases (ih (seen ++ [x]) y).mp hy' with ⟨hm, hn⟩
          exact ⟨List.mem_cons_of_mem x hm,
            fun hs => hn (List.mem_append_left _ hs)⟩
      · rintro ⟨hm, hn⟩
        rcases List.mem_cons.mp hm with rfl | hm'
        · exact List.mem_cons_self y _
        · by_cases hyx : y = x
          · subst hyx
            exact List.mem_cons_self y _
          · refine List.mem_cons_of_mem x ((ih (seen ++ [x]) y).mpr ⟨hm', ?_⟩)
            intro hs
            rcases List.mem_append.mp hs with hs' | hs'
            · exact hn hs'
            · exact hyx (List.mem_singleton.mp hs')

lemma writeObject_keys (o : Object) :
    (writeObject o).map Prod.fst = objectKeysSpec o := by
  simp only [writeObject, objectKeysSpec, List.map_append, map_fst_condEntry,
    map_fst_optEntry, isSome_map_eval]

lemma map_fst_match_item (k : String) (x : Option Item) :
    ((match x with
      | some it => writeItemProp k it
      | none => ([] : List Entry)).map Prod.fst) = condKey x.isSome k := by
  cases x <;> simp [writeItemProp, condKey]

lemma map_fst_items_write (k : String) (its : List Item) :
    ((if its.isEmpty then [] else writeItemCollectionProp k its).map Prod.fst)
      = condKey (0 < its.length) k := by
  cases its <;> simp [writeItemCollectionProp, condKey]

lemma map_fst_int_write (k : String) (n : Nat) :
    ((writeIntProp k (n : Int)).map Prod.fst) = condKey (n ≠ 0) k := by
  by_cases h : n = 0 <;> simp [writeIntProp, condEntry, condKey, h]

lemma marshalEntries_keys (c : Collection) :
    (CollectionG.marshalEntries c).map Prod.fst
      = objectKeysSpec (CollectionG.toObject c) ++ collectionKeysSpec c := by
  simp only [CollectionG.marshalEntries, collectionKeysSpec, List.map_append,
    writeObject_keys, map_fst_match_item, map_fst_items_write, map_fst_int_write,
    List.append_assoc]

/-- C1: Decoding an Item (`Actor.UnmarshalJSON`, `Collection.UnmarshalJSON`)
never aborts because of a single missing or malformed optional field — each
such field silently takes its zero (or kept) value through the soft getters —
and the call returns success with a populated value for every input and every
total helper family; it never returns an error at all, so in particular it
returns an error only when the top-level JSON is invalid (vacuously).  The
last conjunct exercises the concrete spec-modelled helper family on a
non-object top-level document. -/
theorem unmarshal_never_errors (G : Getters) (a : Actor) (c : Collection) (data : Js) :
    (∃ a', ActorG.UnmarshalJSON G a data = .ok a'
      ∧ a'.ID = G.JSONGetID data ∧ a'.«Type» = G.JSONGetType data)
    ∧ (∃ c', CollectionG.UnmarshalJSON G c data = .ok c'
      ∧ c'.ID = G.JSONGetID data ∧ c'.«Type» = G.JSONGetType data)
    ∧ (∃ a', ActorG.UnmarshalJSON defaultGetters a (Js.str "not an object") = .ok a') :=
  ⟨⟨_, rfl, rfl, rfl⟩, ⟨_, rfl, rfl, rfl⟩, ⟨_, rfl⟩⟩

/-- C2: the Actor-narrowing conversion succeeds on the Actor variant and on
the Object variant (which shares the Actor field prefix), preserving the ID;
the Collection-narrowing conversion on an Actor returns an explicit
conversion error (no panic is possible: both conversions are total functions
into `Except`); incompatible variants (a bare link, a collection for
`ToActor`) likewise produce explicit error values. -/
theorem view_conversion_narrowing (a : Actor) (o : Object) (c : Collection) (i : IRI) :
    (∃ r, ToActor (.actor a) = .ok r ∧ r.ID = a.ID)
    ∧ (∃ r, ToActor (.object o) = .ok r ∧ r.ID = o.ID)
    ∧ (∃ e, ToCollection (.actor a) = .error e)
    ∧ (∃ e, ToActor (.link i) = .error e)
    ∧ (∃ e, ToActor (.collection c) = .error e)
    ∧ (∃ e, ToCollection (.link i) = .error e)
    ∧ (ToCollection (.collection c) = .ok c) :=
  ⟨⟨a, rfl, rfl⟩, ⟨ActorOfObject o, rfl, rfl⟩, ⟨_, rfl⟩, ⟨_, rfl⟩, ⟨_, rfl⟩, ⟨_, rfl⟩, rfl⟩

/-- C3: `Count()` returns the explicit `TotalItems` whenever it is nonzero,
and otherwise the length of the materialized `Items` sequence. -/
theorem collection_count_policy (c : Collection) :
    (c.TotalItems ≠ 0 → CollectionG.Count c = c.TotalItems)
    ∧ (c.TotalItems = 0 → CollectionG.Count c = c.Items.length) := by
  constructor
  · intro h
    simp [CollectionG.Count, Nat.pos_of_ne_zero h]
  · intro h
    simp [CollectionG.Count, h]

/-- Witness for C3: a collection with `TotalItems = 5` and two materialized
items counts 5; one with `TotalItems = 0` and three items counts 3. -/
theorem collection_count_policy_witness :
    CollectionG.Count countDocFive = 5 ∧ CollectionG.Count countDocZero = 3 :=
  ⟨(collection_count_policy countDocFive).1 (by decide),
   (collection_count_policy countDocZero).2 rfl⟩

/-- C4: `Recipients()` merges the five lists to, bto, cc, bcc, audience — the
private bto and bcc included — into one sequence whose identifiers are
exactly the first occurrences, in concatenation order, of the identifiers of
the five lists: the identifier sequence equals the first-seen filtering of
the concatenation, contains no duplicates, and keeps exactly the identifiers
of the concatenation.  The last conjunct evaluates the spec's concrete
example to=[A,B], cc=[B,C], bcc=[D]. -/
theorem recipients_first_seen_dedup (a : Actor) :
    ((ActorG.Recipients a).map Item.GetLink
      = keepFirsts ((a.To ++ a.Bto ++ a.CC ++ a.BCC ++ a.Audience).map Item.GetLink))
    ∧ ((ActorG.Recipients a).map Item.GetLink).Nodup
    ∧ (∀ y, y ∈ (ActorG.Recipients a).map Item.GetLink
        ↔ y ∈ (a.To ++ a.Bto ++ a.CC ++ a.BCC ++ a.Audience).map Item.GetLink)
    ∧ (ActorG.Recipients recipientsDoc).map Item.GetLink = ["A", "B", "C", "D"] := by
  have hflat : ([a.To, a.Bto, a.CC, a.BCC, a.Audience] : List ItemCollection).flatten
      = a.To ++ a.Bto ++ a.CC ++ a.BCC ++ a.Audience := by
    simp [List.flatten]
  have hmain : (ActorG.Recipients a).map Item.GetLink
      = keepFirsts ((a.To ++ a.Bto ++ a.CC ++ a.BCC ++ a.Audience).map Item.GetLink) := by
    rw [ActorG.Recipients, ItemCollectionDeduplication, hflat,
      foldl_dedupStep_map, keepFirsts]
    simp
  refine ⟨hmain, ?_, ?_, ?_⟩
  · rw [hmain]
    exact keepFirstsAux_nodup _ []
  · intro y
    rw [hmain, keepFirsts, keepFirstsAux_mem]
    simp
  · rfl

/-- C5: `Clean()` empties exactly the privacy-sensitive `Bto` and `BCC`
fields; every other field of the actor — `To` and `CC` in particular — is
unchanged. -/
theorem clean_strips_only_bto_bcc (a : Actor) :
    (ActorG.Clean a).Bto = [] ∧ (ActorG.Clean a).BCC = []
    ∧ (ActorG.Clean a).ID = a.ID
    ∧ (ActorG.Clean a).«Type» = a.«Type»
    ∧ (ActorG.Clean a).Name = a.Name
    ∧ (ActorG.Clean a).Attachment = a.Attachment
    ∧ (ActorG.Clean a).AttributedTo = a.AttributedTo
    ∧ (ActorG.Clean a).Audience = a.Audience
    ∧ (ActorG.Clean a).Content = a.Content
    ∧ (ActorG.Clean a).Context = a.Context
    ∧ (ActorG.Clean a).MediaType = a.MediaType
    ∧ (ActorG.Clean a).EndTime = a.EndTime
    ∧ (ActorG.Clean a).Generator = a.Generator
    ∧ (ActorG.Clean a).Icon = a.Icon
    ∧ (ActorG.Clean a).Image = a.Image
    ∧ (ActorG.Clean a).InReplyTo = a.InReplyTo
    ∧ (ActorG.Clean a).Location = a.Location
    ∧ (ActorG.Clean a).Preview = a.Preview
    ∧ (ActorG.Clean a).Published = a.Published
    ∧ (ActorG.Clean a).Replies = a.Replies
    ∧ (ActorG.Clean a).StartTime = a.StartTime
    ∧ (ActorG.Clean a).Summary = a.Summary
    ∧ (ActorG.Clean a).Tag = a.Tag
    ∧ (ActorG.Clean a).Updated = a.Updated
    ∧ (ActorG.Clean a).URL = a.URL
    ∧ (ActorG.Clean a).To = a.To
    ∧ (ActorG.Clean a).CC = a.CC
    ∧ (ActorG.Clean a).Duration = a.Duration
    ∧ (ActorG.Clean a).Likes = a.Likes
    ∧ (ActorG.Clean a).Shares = a.Shares
    ∧ (ActorG.Clean a).Source = a.Source
    ∧ (ActorG.Clean a).Inbox = a.Inbox
    ∧ (ActorG.Clean a).Outbox = a.Outbox
    ∧ (ActorG.Clean a).Following = a.Following
    ∧ (ActorG.Clean a).Followers = a.Followers
    ∧ (ActorG.Clean a).Liked = a.Liked
    ∧ (ActorG.Clean a).PreferredUsername = a.PreferredUsername
    ∧ (ActorG.Clean a).Endpoints = a.Endpoints
    ∧ (ActorG.Clean a).Streams = a.Streams
    ∧ (ActorG.Clean a).PublicKey = a.PublicKey :=
  ⟨rfl, rfl, rfl, rfl, rfl, rfl, rfl, rfl, rfl, rfl, rfl, rfl, rfl, rfl, rfl,
   rfl, rfl, rfl, rfl, rfl, rfl, rfl, rfl, rfl, rfl, rfl, rfl, rfl, rfl, rfl,
   rfl, rfl, rfl, rfl, rfl, rfl, rfl, rfl, rfl, rfl⟩

/-- C6: decoding a public-key record succeeds exactly when the string
sub-fields id, owner and publicKeyPem are all present (as strings) in the
input; on success the record holds exactly the extracted values, and when any
of the three is missing or not a string the decode returns an explicit error
instead of a partially zeroed record. -/
theorem publickey_unmarshal_requires_all (p : PublicKey) (data : Js) :
    ((∃ q, PublicKeyG.UnmarshalJSON p data = .ok q) ↔
      ((jsonparserGetString data "id").isSome = true
        ∧ (jsonparserGetString data "owner").isSome = true
        ∧ (jsonparserGetString data "publicKeyPem").isSome = true))
    ∧ (∀ q, PublicKeyG.UnmarshalJSON p data = .ok q →
        some q.ID = jsonparserGetString data "id"
        ∧ q.Owner = (jsonparserGetString data "owner").map Item.link
        ∧ some q.PublicKeyPem = jsonparserGetString data "publicKeyPem")
    ∧ ((¬ ((jsonparserGetString data "id").isSome = true
        ∧ (jsonparserGetString data "owner").isSome = true
        ∧ (jsonparserGetString data "publicKeyPem").isSome = true)) →
        ∃ e, PublicKeyG.UnmarshalJSON p data = .error e) := by
  cases h1 : jsonparserGetString data "id" <;>
    cases h2 : jsonparserGetString data "owner" <;>
      cases h3 : jsonparserGetString data "publicKeyPem" <;>
        simp [PublicKeyG.UnmarshalJSON, h1, h2, h3]

/-- Witness for C6: a record with all three sub-fields decodes successfully;
one missing the owner sub-field produces an explicit error. -/
theorem publickey_unmarshal_requires_all_witness :
    (∃ q, PublicKeyG.UnmarshalJSON {} pkDoc = .ok q)
    ∧ (∃ e, PublicKeyG.UnmarshalJSON {} pkDocMissingOwner = .error e) :=
  ⟨(publickey_unmarshal_requires_all {} pkDoc).1.mpr ⟨rfl, rfl, rfl⟩,
   (publickey_unmarshal_requires_all {} pkDocMissingOwner).2.2
     (fun hall => by cases hall.2.1)⟩

/-- C7: `Contains` returns false on a collection with no materialized items,
and otherwise returns true exactly when some stored item's link identifier
equals the received one under the tolerant (non-strict, flag `false`)
comparison mode. -/
theorem collection_contains_tolerant (c : Collection) (r : IRI) :
    (c.Items = [] → CollectionG.Contains c r = false)
    ∧ (CollectionG.Contains c r = true ↔
        ∃ it ∈ c.Items, IRI.Equals r it.GetLink false = true) := by
  constructor
  · intro h
    simp [CollectionG.Contains, h]
  · cases hI : c.Items with
    | nil => simp [CollectionG.Contains, hI]
    | cons x xs => simp [CollectionG.Contains, hI, List.any_eq_true]

/-- Witness for C7: the identifier `https://a` is found among items storing
`https://a?page=2` (the trailing query part is ignored by the tolerant mode),
and nothing is found in an empty collection. -/
theorem collection_contains_tolerant_witness :
    CollectionG.Contains containsDoc "https://a" = true
    ∧ CollectionG.Contains {} "https://a" = false :=
  ⟨(collection_contains_tolerant containsDoc "https://a").2.mpr
      ⟨Item.link "https://a?page=2", List.mem_singleton_self _, by decide⟩,
   (collection_contains_tolerant {} "https://a").1 rfl⟩

lemma marshal_snd_none (c : Collection) : (CollectionG.MarshalJSON c).2 = none := by
  unfold CollectionG.MarshalJSON
  split <;> rfl

lemma marshal_some_inv (c : Collection) (es : List Entry)
    (h : (CollectionG.MarshalJSON c).1 = some es) :
    es = CollectionG.marshalEntries c := by
  unfold CollectionG.MarshalJSON at h
  by_cases hp : (CollectionG.marshalEntries c).isEmpty
  · rw [if_pos hp] at h
    simp at h
  · rw [if_neg hp] at h
    simp at h
    exact h.symm

lemma keys_name_mem (c : Collection) :
    ("name" ∈ objectKeysSpec (CollectionG.toObject c) ++ collectionKeysSpec c) ↔
      c.Name ≠ [] := by
  simp [objectKeysSpec, collectionKeysSpec, CollectionG.toObject, List.mem_append, mem_cond]

lemma keys_published_mem (c : Collection) :
    ("published" ∈ objectKeysSpec (CollectionG.toObject c) ++ collectionKeysSpec c) ↔
      c.Published ≠ 0 := by
  simp [objectKeysSpec, collectionKeysSpec, CollectionG.toObject, List.mem_append, mem_cond]

lemma keys_items_mem (c : Collection) :
    ("items" ∈ objectKeysSpec (CollectionG.toObject c) ++ collectionKeysSpec c) ↔
      0 < c.Items.length := by
  simp [objectKeysSpec, collectionKeysSpec, CollectionG.toObject, List.mem_append, mem_cond]

lemma keys_totalItems_mem (c : Collection) :
    ("totalItems" ∈ objectKeysSpec (CollectionG.toObject c) ++ collectionKeysSpec c) ↔
      c.TotalItems ≠ 0 := by
  simp [objectKeysSpec, collectionKeysSpec, CollectionG.toObject, List.mem_append, mem_cond]

/-- C8: encoding a Collection writes the common Object fields first and then
the collection-specific fields in the order current, first, last, items,
totalItems; a key is present exactly when its field is non-empty/non-zero
(empty containers, zero timestamps and empty natural-language maps emit no
key at all), as shown for the representative keys name, published, items and
totalItems; the error component of the result is always nil. -/
theorem collection_marshal_layout (c : Collection) :
    (CollectionG.MarshalJSON c).2 = none
    ∧ (∀ es, (CollectionG.MarshalJSON c).1 = some es →
        es.map Prod.fst = objectKeysSpec (CollectionG.toObject c) ++ collectionKeysSpec c
        ∧ (("name" ∈ es.map Prod.fst) ↔ c.Name ≠ [])
        ∧ (("published" ∈ es.map Prod.fst) ↔ c.Published ≠ 0)
        ∧ (("items" ∈ es.map Prod.fst) ↔ 0 < c.Items.length)
        ∧ (("totalItems" ∈ es.map Prod.fst) ↔ c.TotalItems ≠ 0)) := by
  refine ⟨marshal_snd_none c, ?_⟩
  intro es h
  have hes := marshal_some_inv c es h
  have hk : es.map Prod.fst
      = objectKeysSpec (CollectionG.toObject c) ++ collectionKeysSpec c := by
    rw [hes]
    exact marshalEntries_keys c
  rw [hk]
  exact ⟨rfl, keys_name_mem c, keys_published_mem c, keys_items_mem c,
    keys_totalItems_mem c⟩

/-- Witness for C8: a collection whose only present field is its ID encodes
to exactly the key `id`. -/
theorem collection_marshal_layout_witness :
    ([("id", EVal.str "https://x")] : List Entry).map Prod.fst
      = objectKeysSpec (CollectionG.toObject marshalDoc) ++ collectionKeysSpec marshalDoc :=
  ((collection_marshal_layout marshalDoc).2 [("id", EVal.str "https://x")] rfl).1

/-- C9: `ActorNew` keeps a recognized actor role and substitutes the default
actor discriminator for an unrecognized one; the returned actor has the given
ID, empty natural-language containers for Name, Content, Summary and
PreferredUsername, and initialized ordered collections for Inbox, Outbox and
Liked. -/
theorem actor_new_defaults (id : ID) (typ : ActivityVocabularyType) :
    ((ActivityVocabularyTypes.Contains ActorTypes typ = true →
        (ActorNew id typ).«Type» = typ)
      ∧ (ActivityVocabularyTypes.Contains ActorTypes typ = false →
        (ActorNew id typ).«Type» = ActorType))
    ∧ (ActorNew id typ).ID = id
    ∧ (ActorNew id typ).Name = NaturalLanguageValuesNew
    ∧ (ActorNew id typ).Content = NaturalLanguageValuesNew
    ∧ (ActorNew id typ).Summary = NaturalLanguageValuesNew
    ∧ (ActorNew id typ).PreferredUsername = NaturalLanguageValuesNew
    ∧ (ActorNew id typ).Inbox = some (.orderedCollection (OrderedCollectionNew "test-inbox"))
    ∧ (ActorNew id typ).Outbox = some (.orderedCollection (OrderedCollectionNew "test-outbox"))
    ∧ (ActorNew id typ).Liked = some (.orderedCollection (OrderedCollectionNew "test-liked"))
    ∧ (OrderedCollectionNew "test-inbox").«Type» = OrderedCollectionType := by
  refine ⟨⟨?_, ?_⟩, rfl, rfl, rfl, rfl, rfl, rfl, rfl, rfl, rfl⟩
  · intro h
    simp [ActorNew, h]
  · intro h
    simp [ActorNew, h]

/-- Witness for C9: an unrecognized role string falls back to the default
actor discriminator, a recognized one is kept. -/
theorem actor_new_defaults_witness :
    (ActorNew "https://x/a" "FrobnicatorWidget").«Type» = ActorType
    ∧ (ActorNew "https://x/a" "Person").«Type» = "Person" :=
  ⟨(actor_new_defaults "https://x/a" "FrobnicatorWidget").1.2 rfl,
   (actor_new_defaults "https://x/a" "Person").1.1 rfl⟩

/-- C10: when no property write of `Collection.MarshalJSON` produces any
output — the whole object view writes nothing, the page references are nil,
the items are empty and the total count is zero, so that even the totalItems
write emits nothing — the function returns nil bytes and a nil error
(`(none, none)`): not an empty JSON object and not an error. -/
theorem collection_marshal_all_empty (c : Collection)
    (hobj : writeObject (CollectionG.toObject c) = [])
    (hcur : c.Current = none) (hfst : c.First = none) (hlst : c.Last = none)
    (hits : c.Items = []) (htot : c.TotalItems = 0) :
    CollectionG.MarshalJSON c = (none, none) := by
  have he : CollectionG.marshalEntries c = [] := by
    unfold CollectionG.marshalEntries
    rw [hobj, hcur, hfst, hlst, hits, htot]
    simp [writeIntProp, condEntry]
  unfold CollectionG.MarshalJSON
  rw [he]
  rfl

/-- Witness for C10: the fully empty Collection marshals to nil bytes and nil
error. -/
theorem collection_marshal_all_empty_witness :
    CollectionG.MarshalJSON {} = (none, none) :=
  collection_marshal_all_empty {} rfl rfl rfl rfl rfl rfl
